import Mathlib

/-!
Verification of the scaleify-ppc-ugc-dashboard repository.

This file shallowly embeds the data model and the UI state-management logic of
the dashboard (the static sample-data module, the UGC kanban board with its
drag-and-drop handlers, the PPC gallery filter and copy-brief action, and the
setup-wizard product/CSV/database/generation handlers) and proves the
presentation-logic properties stated in the specification.

Modelling conventions:
* TypeScript string-literal unions become Lean inductives
  (`Platform`, `AdStatus`, `UgcScriptType`, `UgcDuration`, `ProductSource`).
* Component state held in React `useState`/`useRef` hooks becomes an explicit
  state structure; each event handler becomes a pure state-transformer.
* Values produced by `Date.now()` / `Math.random()` (fresh ids and SKUs for
  URL-added products) are passed in as explicit parameters.
* `setTimeout` delays are modelled by their fixed millisecond schedule; the
  handlers' state updates are the functions below.
* The JavaScript `id.startsWith('db-')` test is modelled as a character-level
  prefix test on the string's character list, which is its semantics.
-/

namespace Scaleify

/-! ## Data model — `src/data/sampleData.ts` -/

/-- `type Platform = 'meta' | 'google' | 'tiktok' | 'pinterest'`. -/
inductive Platform
  | meta
  | google
  | tiktok
  | pinterest
deriving DecidableEq, Repr

/-- `type AdStatus = 'draft' | 'ready' | 'review' | 'exported'`. -/
inductive AdStatus
  | draft
  | ready
  | review
  | exported
deriving DecidableEq, Repr

/-- `type UgcScriptType` — the six enumerated script types; the kebab-case
string literals of the source become camelCase constructors. -/
inductive UgcScriptType
  | review
  | unboxing
  | problemSolution
  | dayInMyLife
  | beforeAfter
  | testimonial
deriving DecidableEq, Repr

/-- The `duration` field of a UGC script: `'15s' | '30s' | '60s'`. -/
inductive UgcDuration
  | s15
  | s30
  | s60
deriving DecidableEq, Repr

/-- The `charCount` record nested in `AdVariation`. -/
structure CharCount where
  headline : Nat
  maxHeadline : Nat
  primary : Nat
  maxPrimary : Nat
deriving DecidableEq, Repr

/-- `interface AdVariation` of `sampleData.ts`. -/
structure AdVariation where
  id : String
  product : String
  sku : String
  platform : Platform
  headline : String
  primaryText : String
  description : String
  cta : String
  charCount : CharCount
  status : AdStatus
  angle : String
  createdAt : String
deriving DecidableEq, Repr

/-- One scene of a UGC script (`{ timestamp; direction; voiceover }`). -/
structure Scene where
  timestamp : String
  direction : String
  voiceover : String
deriving DecidableEq, Repr

/-- `interface UgcScript` of `sampleData.ts`. -/
structure UgcScript where
  id : String
  product : String
  type : UgcScriptType
  duration : UgcDuration
  hook : String
  scenes : List Scene
  cta : String
  status : AdStatus
deriving DecidableEq, Repr

/-- `interface ProductAdCount` of `sampleData.ts`. -/
structure ProductAdCount where
  product : String
  sku : String
  meta : Nat
  google : Nat
  tiktok : Nat
  pinterest : Nat
  ugcScripts : Nat
  total : Nat
deriving DecidableEq, Repr

/-- `export const productAdCounts` — the product database of the setup wizard. -/
def productAdCounts : List ProductAdCount := [
  { product := "Ceramic Pour-Over Set", sku := "KIT-PO-100", meta := 8, google := 6, tiktok := 4, pinterest := 2, ugcScripts := 3, total := 23 },
  { product := "Bamboo Cutting Board XL", sku := "KIT-CB-200", meta := 8, google := 6, tiktok := 4, pinterest := 2, ugcScripts := 3, total := 23 },
  { product := "Linen Duvet Cover", sku := "BED-DC-300", meta := 6, google := 4, tiktok := 2, pinterest := 2, ugcScripts := 2, total := 16 },
  { product := "Cast Iron Dutch Oven", sku := "KIT-DO-110", meta := 8, google := 6, tiktok := 4, pinterest := 2, ugcScripts := 3, total := 23 },
  { product := "Modular Shelf System", sku := "LIV-MS-400", meta := 6, google := 4, tiktok := 2, pinterest := 0, ugcScripts := 2, total := 14 },
  { product := "Outdoor Teak Bench", sku := "OUT-TB-500", meta := 6, google := 4, tiktok := 2, pinterest := 2, ugcScripts := 2, total := 16 },
  { product := "Handwoven Throw Blanket", sku := "LIV-TB-410", meta := 6, google := 4, tiktok := 4, pinterest := 2, ugcScripts := 3, total := 19 },
  { product := "Stoneware Dinner Set", sku := "KIT-DS-120", meta := 8, google := 6, tiktok := 4, pinterest := 2, ugcScripts := 3, total := 23 }
]

/-- `export const adVariations` — the 12 static ad records. -/
def adVariations : List AdVariation := [
  { id := "ad-001", product := "Ceramic Pour-Over Set", sku := "KIT-PO-100", platform := .meta,
    headline := "Morning Coffee, Perfected",
    primaryText := "Stop settling for mediocre coffee. Our hand-crafted ceramic pour-over set brews barista-quality coffee in under 4 minutes. Over 2,400 five-star reviews.",
    description := "Free shipping on orders over $75", cta := "Shop Now",
    charCount := { headline := 25, maxHeadline := 40, primary := 148, maxPrimary := 125 },
    status := .review, angle := "Quality / Craft", createdAt := "Feb 28" },
  { id := "ad-002", product := "Ceramic Pour-Over Set", sku := "KIT-PO-100", platform := .meta,
    headline := "Ditch the Keurig. Taste Real Coffee.",
    primaryText := "Your morning deserves better than a plastic pod. Our ceramic pour-over set brings out flavors you didn\u0027t know your beans had. 30-day money-back guarantee.",
    description := "Join 12,000+ home baristas", cta := "Shop Now",
    charCount := { headline := 36, maxHeadline := 40, primary := 156, maxPrimary := 125 },
    status := .ready, angle := "Comparison / Upgrade", createdAt := "Feb 28" },
  { id := "ad-003", product := "Bamboo Cutting Board XL", sku := "KIT-CB-200", platform := .meta,
    headline := "The Last Cutting Board You\u0027ll Buy",
    primaryText := "Sustainable bamboo. Knife-friendly surface. Built to last decades, not months. Extra-large for serious home cooks who need real workspace.",
    description := "Sustainably sourced bamboo", cta := "Learn More",
    charCount := { headline := 35, maxHeadline := 40, primary := 143, maxPrimary := 125 },
    status := .ready, angle := "Durability / Sustainability", createdAt := "Feb 28" },
  { id := "ad-004", product := "Cast Iron Dutch Oven", sku := "KIT-DO-110", platform := .meta,
    headline := "One Pot. Endless Meals.",
    primaryText := "From sourdough bread to slow-braised short ribs, our 6-quart dutch oven does it all. Pre-seasoned and ready to use out of the box.",
    description := "Lifetime warranty included", cta := "Shop Now",
    charCount := { headline := 22, maxHeadline := 40, primary := 138, maxPrimary := 125 },
    status := .ready, angle := "Versatility", createdAt := "Feb 28" },
  { id := "ad-005", product := "Ceramic Pour-Over Set", sku := "KIT-PO-100", platform := .google,
    headline := "Pour-Over Coffee Set",
    primaryText := "Hand-crafted ceramic pour-over set. Brews barista-quality coffee in 4 minutes. Free shipping over $75.",
    description := "Premium ceramic. 2,400+ reviews. 30-day guarantee.", cta := "Shop Now",
    charCount := { headline := 20, maxHeadline := 30, primary := 92, maxPrimary := 90 },
    status := .ready, angle := "Direct / Search Intent", createdAt := "Feb 28" },
  { id := "ad-006", product := "Linen Duvet Cover", sku := "BED-DC-300", platform := .google,
    headline := "Linen Duvet Cover",
    primaryText := "European flax linen. Gets softer with every wash. Temperature-regulating for year-round comfort.",
    description := "Stone-washed finish. 6 colors available.", cta := "Shop Now",
    charCount := { headline := 18, maxHeadline := 30, primary := 89, maxPrimary := 90 },
    status := .ready, angle := "Product Features", createdAt := "Feb 28" },
  { id := "ad-007", product := "Outdoor Teak Bench", sku := "OUT-TB-500", platform := .google,
    headline := "Teak Garden Bench",
    primaryText := "Grade-A teak. Weather-resistant without treatment. Seats 3 comfortably. Assembly in 15 minutes.",
    description := "Free delivery. 5-year outdoor warranty.", cta := "Shop Now",
    charCount := { headline := 17, maxHeadline := 30, primary := 88, maxPrimary := 90 },
    status := .exported, angle := "Practical / Specs", createdAt := "Feb 27" },
  { id := "ad-008", product := "Handwoven Throw Blanket", sku := "LIV-TB-410", platform := .tiktok,
    headline := "This blanket hits different",
    primaryText := "POV: You finally replaced your Target throw with something that actually feels like a hug. Handwoven. Ridiculously soft. You\u0027ll fight over it.",
    description := "", cta := "Get Yours",
    charCount := { headline := 27, maxHeadline := 40, primary := 155, maxPrimary := 150 },
    status := .ready, angle := "Relatable / POV", createdAt := "Feb 28" },
  { id := "ad-009", product := "Stoneware Dinner Set", sku := "KIT-DS-120", platform := .tiktok,
    headline := "Upgrade your plate game",
    primaryText := "POV: Your friends come over and think you got your dishes from a boutique in Paris. Nope. $89 for a full 4-person set.",
    description := "", cta := "Shop Now",
    charCount := { headline := 23, maxHeadline := 40, primary := 126, maxPrimary := 150 },
    status := .ready, angle := "Social Proof / Flex", createdAt := "Feb 28" },
  { id := "ad-010", product := "Ceramic Pour-Over Set", sku := "KIT-PO-100", platform := .tiktok,
    headline := "Coffee snobs, this is for you",
    primaryText := "I switched from a $300 machine to this $45 pour-over set and the coffee is better. I\u0027m not even joking. The ceramic retains heat perfectly.",
    description := "", cta := "Try It",
    charCount := { headline := 29, maxHeadline := 40, primary := 142, maxPrimary := 150 },
    status := .ready, angle := "Testimonial / Value", createdAt := "Feb 28" },
  { id := "ad-011", product := "Modular Shelf System", sku := "LIV-MS-400", platform := .pinterest,
    headline := "Minimalist shelving that actually works",
    primaryText := "Design your perfect wall storage. Mix and match modules for any room. Solid oak with invisible mounting.",
    description := "Save this for your next room makeover", cta := "Save Pin",
    charCount := { headline := 38, maxHeadline := 40, primary := 101, maxPrimary := 125 },
    status := .ready, angle := "Aspirational / Design", createdAt := "Feb 28" },
  { id := "ad-012", product := "Linen Duvet Cover", sku := "BED-DC-300", platform := .pinterest,
    headline := "The bedroom refresh you need",
    primaryText := "European flax linen in 6 muted tones. Effortlessly elevated bedding that gets softer with every wash.",
    description := "Pin for your bedroom makeover board", cta := "Save Pin",
    charCount := { headline := 28, maxHeadline := 40, primary := 97, maxPrimary := 125 },
    status := .ready, angle := "Aspirational / Lifestyle", createdAt := "Feb 28" }
]

/-- `export const ugcScripts` — the 12 static UGC script records. -/
def ugcScripts : List UgcScript := [
  { id := "ugc-001", product := "Ceramic Pour-Over Set", type := .review, duration := .s30,
    hook := "I was skeptical about spending $45 on a coffee maker...",
    scenes := [
      { timestamp := "0:00-0:03", direction := "Close-up of face, skeptical expression", voiceover := "So I bought this pour-over set everyone\u0027s been talking about..." },
      { timestamp := "0:03-0:10", direction := "Unboxing on kitchen counter, show ceramic texture", voiceover := "First thing I noticed — the ceramic quality. This isn\u0027t some cheap Amazon knockoff." },
      { timestamp := "0:10-0:20", direction := "Brewing sequence, steam rising, slow pour", voiceover := "Four minutes later and honestly? This is the best cup of coffee I\u0027ve made at home. Ever." },
      { timestamp := "0:20-0:28", direction := "Sitting at table, sipping, genuine reaction", voiceover := "I returned my Nespresso. I\u0027m not even kidding. This is all I need now." },
      { timestamp := "0:28-0:30", direction := "Product on counter, natural light", voiceover := "Link in bio if you want to try it yourself." }],
    cta := "Link in bio — use code POUR15 for 15% off", status := .ready },
  { id := "ugc-002", product := "Cast Iron Dutch Oven", type := .problemSolution, duration := .s30,
    hook := "If you\u0027re still using non-stick pans from college...",
    scenes := [
      { timestamp := "0:00-0:05", direction := "Show scratched, warped cheap pan", voiceover := "Look at this pan. It\u0027s peeling. It\u0027s warped. We\u0027ve all been here." },
      { timestamp := "0:05-0:12", direction := "Transition to dutch oven reveal, dramatic", voiceover := "Then I got this cast iron dutch oven and everything changed." },
      { timestamp := "0:12-0:22", direction := "Cooking montage — bread, stew, roast chicken", voiceover := "Bread? Perfect crust. Stew? Restaurant quality. Roast chicken? My family thinks I took a cooking class." },
      { timestamp := "0:22-0:28", direction := "Show pre-seasoned surface, lifetime warranty card", voiceover := "Pre-seasoned, lifetime warranty. This is the last pot you\u0027ll ever buy." },
      { timestamp := "0:28-0:30", direction := "Point to camera", voiceover := "Link below. Thank me later." }],
    cta := "Shop the dutch oven — free shipping today", status := .ready },
  { id := "ugc-003", product := "Handwoven Throw Blanket", type := .unboxing, duration := .s15,
    hook := "This just arrived and I can\u0027t stop touching it",
    scenes := [
      { timestamp := "0:00-0:03", direction := "Holding sealed package, excited expression", voiceover := "My handwoven throw just arrived!" },
      { timestamp := "0:03-0:08", direction := "Unwrap, show texture close-up, drape over hand", voiceover := "Feel that texture. This is real craftsmanship. So unbelievably soft." },
      { timestamp := "0:08-0:13", direction := "Drape on couch, style it, step back to admire", voiceover := "My living room just went from basic to boutique hotel." },
      { timestamp := "0:13-0:15", direction := "Cozy on couch wrapped in blanket, thumbs up", voiceover := "Link in bio!" }],
    cta := "Shop handwoven throws", status := .ready },
  { id := "ugc-004", product := "Bamboo Cutting Board XL", type := .dayInMyLife, duration := .s60,
    hook := "Sunday meal prep just hits different with the right tools",
    scenes := [
      { timestamp := "0:00-0:05", direction := "Morning kitchen, coffee in hand, calm energy", voiceover := "Sunday morning. Coffee\u0027s ready. Time for meal prep." },
      { timestamp := "0:05-0:15", direction := "Pull out cutting board, show size comparison", voiceover := "This bamboo board is massive. I can actually prep everything without shuffling stuff around." },
      { timestamp := "0:15-0:30", direction := "Chopping montage — vegetables, herbs, protein", voiceover := "Onions, peppers, chicken, herbs — all in one session. The surface is so knife-friendly." },
      { timestamp := "0:30-0:45", direction := "Show juice groove catching liquids, easy cleanup", voiceover := "See that juice groove? Zero mess on my counter. And cleanup takes 30 seconds." },
      { timestamp := "0:45-0:55", direction := "Finished meals in containers, organized fridge", voiceover := "Four days of lunches, done in 45 minutes. That\u0027s what the right tools do." },
      { timestamp := "0:55-1:00", direction := "Pat cutting board, wink at camera", voiceover := "This board pays for itself every single week. Link in bio." }],
    cta := "Get the Bamboo XL — save 20% this week", status := .ready },
  { id := "ugc-005", product := "Stoneware Dinner Set", type := .beforeAfter, duration := .s15,
    hook := "What your dinner table looks like vs. what it could look like",
    scenes := [
      { timestamp := "0:00-0:03", direction := "Sad table with mismatched plates, harsh lighting", voiceover := "This is what most of us are working with..." },
      { timestamp := "0:03-0:05", direction := "Quick transition — hand swipe or blink cut", voiceover := "" },
      { timestamp := "0:05-0:12", direction := "Same table, styled with stoneware set, warm lighting, candles", voiceover := "And this is a $89 upgrade. Same table. Same food. Completely different energy." },
      { timestamp := "0:12-0:15", direction := "Close-up of plate texture, minimal and elegant", voiceover := "Stoneware dinner set. Link in bio." }],
    cta := "Upgrade your table for $89", status := .ready },
  { id := "ugc-006", product := "Linen Duvet Cover", type := .testimonial, duration := .s30,
    hook := "My wife said this was the best purchase I\u0027ve ever made",
    scenes := [
      { timestamp := "0:00-0:05", direction := "Sitting on bed edge, casual and genuine", voiceover := "Okay so my wife is really picky about bedding. Like, unreasonably picky." },
      { timestamp := "0:05-0:15", direction := "Show duvet cover texture, run hand across it", voiceover := "I surprised her with this linen duvet cover and she literally said it was the best purchase I\u0027ve ever made." },
      { timestamp := "0:15-0:25", direction := "Made bed shot from different angles, morning light", voiceover := "It\u0027s European flax linen. Gets softer every wash. And it actually keeps you cool in summer." },
      { timestamp := "0:25-0:30", direction := "Both on bed, comfortable and happy", voiceover := "Best $120 I ever spent. Her words, not mine." }],
    cta := "Shop linen bedding — 6 colors available", status := .exported },
  { id := "ugc-007", product := "Outdoor Teak Bench", type := .review, duration := .s30,
    hook := "I almost bought a $2,000 bench. Then I found this.",
    scenes := [
      { timestamp := "0:00-0:04", direction := "Standing in backyard, gesturing to bench", voiceover := "I was about to drop two grand on a teak bench from Restoration Hardware." },
      { timestamp := "0:04-0:12", direction := "Sit on bench, show quality up close", voiceover := "Then I found this one. Same grade-A teak. Same weather resistance. A fraction of the price." },
      { timestamp := "0:12-0:22", direction := "Show rain, sun, various weather on bench", voiceover := "Three months in, rain, sun, everything. It looks even better than the day I got it." },
      { timestamp := "0:22-0:30", direction := "Relaxing on bench with coffee, golden hour", voiceover := "My favorite spot in the house now. Link in bio." }],
    cta := "Shop the teak bench — free delivery", status := .review },
  { id := "ugc-008", product := "Modular Shelf System", type := .problemSolution, duration := .s30,
    hook := "My living room looked like a storage unit",
    scenes := [
      { timestamp := "0:00-0:05", direction := "Show messy room, stuff everywhere", voiceover := "Books stacked on the floor. Plants on random tables. It was chaos." },
      { timestamp := "0:05-0:15", direction := "Time-lapse of installing modular shelves", voiceover := "Got this modular shelf system and installed it in like 20 minutes." },
      { timestamp := "0:15-0:25", direction := "Styled shelves, everything organized beautifully", voiceover := "Same stuff. Same room. But now it actually looks like I have my life together." },
      { timestamp := "0:25-0:30", direction := "Step back to admire, satisfied nod", voiceover := "Invisible mounting, solid oak. This thing is legit." }],
    cta := "Design your own shelf configuration", status := .review },
  { id := "ugc-009", product := "Ceramic Pour-Over Set", type := .unboxing, duration := .s15,
    hook := "The packaging alone is worth the price",
    scenes := [
      { timestamp := "0:00-0:03", direction := "Package on counter, hands reaching in", voiceover := "Okay let\u0027s see what the hype is about..." },
      { timestamp := "0:03-0:08", direction := "Unwrap ceramic, show weight and finish", voiceover := "Oh wow. The weight of this thing. The glaze. This is serious." },
      { timestamp := "0:08-0:13", direction := "All pieces laid out, morning light", voiceover := "Carafe, dripper, filters, measuring scoop. Everything you need." },
      { timestamp := "0:13-0:15", direction := "Hold up to camera, impressed face", voiceover := "First brew tomorrow morning. Stay tuned." }],
    cta := "Shop the pour-over set", status := .draft },
  { id := "ugc-010", product := "Cast Iron Dutch Oven", type := .dayInMyLife, duration := .s60,
    hook := "Cozy Sunday cooking: dutch oven edition",
    scenes := [
      { timestamp := "0:00-0:08", direction := "Morning kitchen, prepping ingredients", voiceover := "Sunday ritual: slow-cook something amazing in the dutch oven." },
      { timestamp := "0:08-0:20", direction := "Browning meat, deglazing, adding veg", voiceover := "There\u0027s something about the sear you get with cast iron. Nothing else compares." },
      { timestamp := "0:20-0:35", direction := "Into the oven, time-lapse, kitchen activities", voiceover := "Three hours in the oven. Meanwhile, I actually get to relax." },
      { timestamp := "0:35-0:50", direction := "Open lid reveal, steam, beautiful food", voiceover := "And this is why everyone needs a dutch oven. Look at that." },
      { timestamp := "0:50-0:58", direction := "Family eating, enjoying the meal", voiceover := "My kids think I went to culinary school. I just have good equipment." },
      { timestamp := "0:58-1:00", direction := "Hold up dutch oven, wink", voiceover := "Link in bio. You need this." }],
    cta := "Get the dutch oven — pre-seasoned and ready", status := .draft },
  { id := "ugc-011", product := "Stoneware Dinner Set", type := .testimonial, duration := .s30,
    hook := "My dinner parties went from \"meh\" to \"magazine-worthy\"",
    scenes := [
      { timestamp := "0:00-0:05", direction := "Before shot of basic table setting", voiceover := "This is what my dinner parties used to look like. Fine, but forgettable." },
      { timestamp := "0:05-0:15", direction := "After shot with stoneware, styled beautifully", voiceover := "Then I got this stoneware set and suddenly people were taking photos of my TABLE." },
      { timestamp := "0:15-0:25", direction := "Close-ups of texture, friends admiring", voiceover := "Every single person asks where I got these. The texture, the matte finish, the weight." },
      { timestamp := "0:25-0:30", direction := "Full table shot, dinner party vibes", voiceover := "Eighty-nine dollars. Best home upgrade I\u0027ve made." }],
    cta := "Shop the dinner set — 4-person set for $89", status := .draft },
  { id := "ugc-012", product := "Bamboo Cutting Board XL", type := .beforeAfter, duration := .s15,
    hook := "Your cutting board vs. mine",
    scenes := [
      { timestamp := "0:00-0:03", direction := "Show small, warped plastic cutting board", voiceover := "This is what most people are working with..." },
      { timestamp := "0:03-0:05", direction := "Dramatic transition", voiceover := "" },
      { timestamp := "0:05-0:12", direction := "XL bamboo board with full meal prep spread", voiceover := "And this is the upgrade that changed my entire cooking routine. Extra-large, self-healing bamboo." },
      { timestamp := "0:12-0:15", direction := "Wipe clean in one motion, spotless", voiceover := "Cleanup? Five seconds. Link in bio." }],
    cta := "Get the XL bamboo board", status := .review }
]


/-! ## UGC kanban board — `src/components/UgcScripts.tsx` -/

/-- One entry of the `columns` constant (id, label and the two CSS classes). -/
structure Column where
  id : AdStatus
  label : String
  color : String
  dotColor : String
deriving DecidableEq, Repr

/-- `const columns` — the four fixed status lanes, in source order. -/
def columns : List Column := [
  { id := .draft, label := "Draft", color := "text-text-muted", dotColor := "bg-text-muted" },
  { id := .review, label := "In Review", color := "text-amber-400", dotColor := "bg-amber-400" },
  { id := .ready, label := "Ready", color := "text-green-400", dotColor := "bg-green-400" },
  { id := .exported, label := "Exported", color := "text-blue-400", dotColor := "bg-blue-400" }]

/-- The local state of the `UgcScripts` component: the `scripts` `useState`
(seeded from `ugcScripts`), the `dragOverCol` `useState`, and the
`draggedId` `useRef`. -/
structure BoardState where
  scripts : List UgcScript
  dragOverCol : Option AdStatus
  draggedId : Option String
deriving DecidableEq, Repr

/-- `handleDragStart` — remembers the dragged record identifier. -/
def handleDragStart (id : String) (st : BoardState) : BoardState :=
  { st with draggedId := some id }

/-- `handleDragOver` — highlights the lane under the pointer. -/
def handleDragOver (colId : AdStatus) (st : BoardState) : BoardState :=
  { st with dragOverCol := some colId }

/-- `handleDragLeave` — clears the highlight when the pointer has left the
lane's bounding box; the geometric test on `clientX`/`clientY` against the
element's rectangle is abstracted to its boolean outcome `outside`. -/
def handleDragLeave (colId : AdStatus) (outside : Bool) (st : BoardState) : BoardState :=
  if outside && st.dragOverCol == some colId then { st with dragOverCol := none } else st

/-- `handleDrop` — if a dragged id is pending, reassign the matching record's
status to the target lane's status; otherwise leave the list untouched.
In both cases the highlight is cleared. -/
def handleDrop (targetStatus : AdStatus) (st : BoardState) : BoardState :=
  match st.draggedId with
  | none => { st with dragOverCol := none }
  | some i =>
      { st with
          dragOverCol := none,
          scripts := st.scripts.map fun s =>
            if s.id == i then { s with status := targetStatus } else s,
          draggedId := none }

/-- `handleDragEnd` — clears highlight and pending drag id. -/
def handleDragEnd (st : BoardState) : BoardState :=
  { st with dragOverCol := none, draggedId := none }

/-- `const grouped = columns.map((col) => ({ ...col, scripts: scripts.filter((s) => s.status === col.id) }))`,
modelled as the column paired with its lane's scripts. -/
def grouped (scripts : List UgcScript) : List (Column × List UgcScript) :=
  columns.map fun col => (col, scripts.filter fun s => s.status == col.id)

/-- The component's initial state: `useState<UgcScript[]>([...initialScripts])`
with no highlight and no pending drag. -/
def initialBoard : BoardState :=
  { scripts := ugcScripts, dragOverCol := none, draggedId := none }

/-- One user interaction on the kanban board. -/
inductive BoardStep : BoardState → BoardState → Prop
  | dragStart (id : String) (st : BoardState) : BoardStep st (handleDragStart id st)
  | dragOver (colId : AdStatus) (st : BoardState) : BoardStep st (handleDragOver colId st)
  | dragLeave (colId : AdStatus) (outside : Bool) (st : BoardState) :
      BoardStep st (handleDragLeave colId outside st)
  | drop (targetStatus : AdStatus) (st : BoardState) : BoardStep st (handleDrop targetStatus st)
  | dragEnd (st : BoardState) : BoardStep st (handleDragEnd st)

/-- Board states reachable from the initial state by user interactions. -/
def ReachableBoard (st : BoardState) : Prop :=
  Relation.ReflTransGen BoardStep initialBoard st

/-! ## PPC gallery — `PpcGallery` and `DetailModal` -/

/-- `useState<AdStatus | 'all'>` — the gallery's status filter. -/
inductive StatusFilter
  | all
  | only (s : AdStatus)
deriving DecidableEq, Repr

/-- `const statusFilters: (AdStatus | 'all')[] = ['all', 'ready', 'review', 'draft', 'exported']`. -/
def statusFilters : List StatusFilter :=
  [.all, .only .ready, .only .review, .only .draft, .only .exported]

/-- `const filtered = statusFilter === 'all' ? adVariations : adVariations.filter((a) => a.status === statusFilter)`. -/
def filteredAds (statusFilter : StatusFilter) : List AdVariation :=
  match statusFilter with
  | .all => adVariations
  | .only s => adVariations.filter fun a => a.status == s

/-- The plain-text block built by `DetailModal.handleCopy`:
`Headline: ...\nPrimary Text: ...\nDescription: ...\nCTA: ...`. -/
def copyBriefText (ad : AdVariation) : String :=
  "Headline: " ++ ad.headline ++ "\nPrimary Text: " ++ ad.primaryText
    ++ "\nDescription: " ++ ad.description ++ "\nCTA: " ++ ad.cta

/-- The local state of `DetailModal` relevant to the copy action: the
`copied` flag and the clipboard content written by
`navigator.clipboard.writeText`. -/
structure DetailModalState where
  copied : Bool
  clipboard : Option String
deriving DecidableEq, Repr

/-- `handleCopy` — serialize the ad record into the template text, place it on
the clipboard and set the `copied` flag. -/
def handleCopy (ad : AdVariation) (st : DetailModalState) : DetailModalState :=
  { st with copied := true, clipboard := some (copyBriefText ad) }


/-! ## Setup wizard — `src/pages/SetupPage.tsx` -/

/-- The `source` field of an added product: `'url' | 'csv' | 'database'`. -/
inductive ProductSource
  | url
  | csv
  | database
deriving DecidableEq, Repr

/-- `interface AddedProduct` of `SetupPage.tsx`. -/
structure AddedProduct where
  id : String
  name : String
  sku : String
  category : String
  price : String
  source : ProductSource
deriving DecidableEq, Repr

/-- One entry of the `scrapedProducts` demo pool. -/
structure ScrapedProduct where
  name : String
  category : String
  price : String
deriving DecidableEq, Repr

/-- `const scrapedProducts` — the constant pool of 5 fake scrape results. -/
def scrapedProducts : List ScrapedProduct := [
  { name := "Artisan Coffee Mug Set", category := "Kitchen", price := "$38.00" },
  { name := "Organic Cotton Bath Towels", category := "Bathroom", price := "$52.00" },
  { name := "Walnut Serving Board", category := "Kitchen", price := "$64.00" },
  { name := "Recycled Glass Vase", category := "Living Room", price := "$29.00" },
  { name := "Merino Wool Throw", category := "Bedroom", price := "$89.00" }]

/-- The record appended by `handleAddUrl` when the added-products list
currently has `idx` entries: `scrapedProducts[idx % scrapedProducts.length]`
supplies name, category and price; the id (built from `Date.now()`) and the
SKU (built from `Math.random()`) are passed in explicitly. -/
def mkUrlProduct (freshId freshSku : String) (idx : Nat) : AddedProduct :=
  let fake := scrapedProducts.getD (idx % scrapedProducts.length) { name := "", category := "", price := "" }
  { id := freshId, name := fake.name, sku := freshSku,
    category := fake.category, price := fake.price, source := .url }

/-- JavaScript `String.prototype.trim` — strip whitespace from both ends —
modelled on the string's character list. -/
def strTrim (s : String) : String :=
  ⟨((s.data.dropWhile Char.isWhitespace).reverse.dropWhile Char.isWhitespace).reverse⟩

/-- `handleAddUrl` — a no-op when the trimmed URL input is empty
(`if (!urlInput.trim()) return`); otherwise (after the simulated scrape
delay) appends one product picked round-robin from `scrapedProducts` by the
current length of the added-products list. -/
def handleAddUrl (urlInput freshId freshSku : String)
    (products : List AddedProduct) : List AddedProduct :=
  if strTrim urlInput == "" then products
  else products ++ [mkUrlProduct freshId freshSku products.length]

/-- `n` successive completed invocations of `handleAddUrl` starting from the
initial empty added-products list; invocation `i` supplies URL input
`urls i` and fresh id/SKU `ids i` / `skus i`. -/
def addUrlTimes (urls ids skus : Nat → String) : Nat → List AddedProduct
  | 0 => []
  | n + 1 => handleAddUrl (urls n) (ids n) (skus n) (addUrlTimes urls ids skus n)

/-- `const csvProducts` — the 3 constant records appended by `handleCsvUpload`. -/
def csvProducts : List AddedProduct := [
  { id := "csv-1", name := "Ceramic Candle Holder", sku := "LIV-CH-600", category := "Living Room", price := "$24.00", source := .csv },
  { id := "csv-2", name := "Wooden Picture Frame", sku := "BED-PF-700", category := "Bedroom", price := "$18.00", source := .csv },
  { id := "csv-3", name := "Woven Storage Basket", sku := "LIV-SB-800", category := "Living Room", price := "$32.00", source := .csv }]

/-- The step-1 product state of the setup page. -/
structure SetupProductsState where
  urlInput : String
  addedProducts : List AddedProduct
  selectedDbProducts : List String
  scraping : Bool
  csvUploaded : Bool
deriving DecidableEq, Repr

/-- The initial setup-page state (all `useState` initialisers). -/
def initialSetupState : SetupProductsState :=
  { urlInput := "", addedProducts := [], selectedDbProducts := [],
    scraping := false, csvUploaded := false }

/-- `handleCsvUpload` — flips the `csvUploaded` flag and appends the 3
constant records. The file chosen in the browser file picker is never read;
it is passed here as an explicit (ignored) argument to state that. -/
def handleCsvUpload (_selectedFile : Option String)
    (st : SetupProductsState) : SetupProductsState :=
  { st with csvUploaded := true, addedProducts := st.addedProducts ++ csvProducts }

/-- The SKUs of the product database, `productAdCounts.map((p) => p.sku)`. -/
def dbSkus : List String := productAdCounts.map fun p => p.sku

/-- `toggleDbProduct` — toggles `sku` in the selected-database list and keeps
`addedProducts` in sync: when the SKU becomes selected (and exists in
`productAdCounts`) a `db-`-prefixed record is appended; when it becomes
deselected the matching record is removed. -/
def toggleDbProduct (sku : String) (st : SetupProductsState) : SetupProductsState :=
  let nxt :=
    if sku ∈ st.selectedDbProducts then st.selectedDbProducts.filter fun s => !(s == sku)
    else st.selectedDbProducts ++ [sku]
  let added :=
    match productAdCounts.find? (fun p => p.sku == sku) with
    | some dbProduct =>
        if sku ∈ nxt then
          st.addedProducts ++
            [{ id := "db-" ++ sku, name := dbProduct.product, sku := dbProduct.sku,
               category := "", price := "", source := .database }]
        else st.addedProducts.filter fun p => !(p.id == "db-" ++ sku)
    | none => st.addedProducts
  { st with selectedDbProducts := nxt, addedProducts := added }

/-- `selectAllDb` — selects every database SKU; all database-sourced records
are removed from `addedProducts` and one record per database product is
appended. -/
def selectAllDb (st : SetupProductsState) : SetupProductsState :=
  { st with
      selectedDbProducts := dbSkus,
      addedProducts :=
        st.addedProducts.filter (fun p => !(p.source == .database)) ++
          productAdCounts.map fun p =>
            { id := "db-" ++ p.sku, name := p.product, sku := p.sku,
              category := "", price := "", source := .database } }

/-- `deselectAllDb` — clears the selection and removes every database-sourced
record. -/
def deselectAllDb (st : SetupProductsState) : SetupProductsState :=
  { st with
      selectedDbProducts := [],
      addedProducts := st.addedProducts.filter fun p => !(p.source == .database) }

/-- The JavaScript `id.startsWith('db-')` test: a character-level prefix
test. -/
def strStartsWith (s p : String) : Bool :=
  p.data.isPrefixOf s.data

/-- `removeProduct` — removes the record with the given id; for a
database-sourced id (`db-` prefix) the SKU is also deselected. The source
computes the SKU as `id.replace('db-', '')`; under the `id.startsWith('db-')`
guard, replacing the first occurrence of the 3-character pattern is exactly
dropping the first 3 characters. -/
def removeProduct (id : String) (st : SetupProductsState) : SetupProductsState :=
  let added := st.addedProducts.filter fun p => !(p.id == id)
  let sel :=
    if strStartsWith id ("db-") then
      let sku := String.drop id 3
      st.selectedDbProducts.filter fun s => !(s == sku)
    else st.selectedDbProducts
  { st with addedProducts := added, selectedDbProducts := sel }

/-- One database-selection interaction of the setup wizard (the four
operations named by the specification; `toggleDbProduct` is invoked with a
SKU drawn from the product database, `removeProduct` with an arbitrary id). -/
inductive DbStep : SetupProductsState → SetupProductsState → Prop
  | toggle (sku : String) (hsku : sku ∈ dbSkus) (st : SetupProductsState) :
      DbStep st (toggleDbProduct sku st)
  | selectAll (st : SetupProductsState) : DbStep st (selectAllDb st)
  | deselectAll (st : SetupProductsState) : DbStep st (deselectAllDb st)
  | remove (id : String) (st : SetupProductsState) : DbStep st (removeProduct id st)

/-- Setup states reachable from the initial state via the database-selection
operations. -/
def ReachableDb (st : SetupProductsState) : Prop :=
  Relation.ReflTransGen DbStep initialSetupState st

/-! ## Generation simulation — `handleGenerate` -/

/-- `const steps` of `handleGenerate` — the fixed ordered list of
(message, percentage) pairs. -/
def genSteps : List (String × Nat) := [
  ("Connecting to product catalog...", 15),
  ("Analyzing product data...", 30),
  ("Generating ad copy for all platforms...", 55),
  ("Generating UGC video scripts...", 75),
  ("Exporting files...", 90),
  ("Done! Redirecting to dashboard...", 100)]

/-- Step `i` (0-based) is displayed at `(i + 1) * 1200` milliseconds. -/
def genStepTime (i : Nat) : Nat := (i + 1) * 1200

/-- After the final step a further `1200` ms timeout fires `navigate('/')`. -/
def navigateDelay : Nat := 1200

/-- The time at which the app navigates away, relative to `handleGenerate`. -/
def navigateTime : Nat := genStepTime (genSteps.length - 1) + navigateDelay

/-- The route passed to `navigate` after the simulation: the dashboard. -/
def navigateRoute : String := "/"


/-! ## Helper lemmas -/

/-- Filtering a mapped list is mapping the correspondingly filtered list. -/
theorem map_filter_comm {α β : Type} (f : α → β) (p : β → Bool) (l : List α) :
    (l.map f).filter p = (l.filter fun a => p (f a)).map f := by
  induction l with
  | nil => rfl
  | cons a t ih =>
      simp only [List.map_cons, List.filter_cons]
      cases h : p (f a) <;> simp [h, ih]

/-- Occurrence count in a filtered list. -/
theorem count_filter_eq {α : Type} [DecidableEq α] (p : α → Bool) (x : α) (l : List α) :
    (l.filter p).count x = if p x then l.count x else 0 := by
  induction l with
  | nil => simp
  | cons a t ih =>
      by_cases hax : x = a
      · subst hax
        cases h : p x with
        | true => simp [List.filter_cons, h, ih, List.count_cons_self]
        | false => simp [List.filter_cons, h, ih]
      · cases h : p a with
        | true => simp [List.filter_cons, h, ih, List.count_cons_of_ne hax]
        | false => simp [List.filter_cons, h, ih, List.count_cons_of_ne hax]

/-- String concatenation is left-cancellative. -/
theorem string_append_left_cancel {a b c : String} (h : a ++ b = a ++ c) : b = c := by
  apply String.ext
  have hd := congrArg String.data h
  rw [String.data_append, String.data_append] at hd
  exact List.append_cancel_left hd

/-- Prepending `db-` to a SKU is injective. -/
theorem db_id_injective : Function.Injective (fun s : String => "db-" ++ s) :=
  fun _ _ h => string_append_left_cancel h

/-- A `db-`-prefixed string passes the `startsWith` test. -/
theorem strStartsWith_db (s : String) : strStartsWith ("db-" ++ s) ("db-") = true := by
  unfold strStartsWith
  rw [List.isPrefixOf_iff_prefix, String.data_append]
  exact List.prefix_append _ _

/-- Dropping 3 characters undoes prepending `db-`. -/
theorem db_drop3 (s : String) : String.drop ("db-" ++ s) 3 = s := by
  apply String.ext
  rw [String.data_drop, String.data_append]
  rw [show (3 : Nat) = ("db-".data).length from rfl, List.drop_left]

/-- A string passing the `startsWith db-` test decomposes as `db-` plus its
tail. -/
theorem strStartsWith_decomp {id : String} (h : strStartsWith id ("db-") = true) :
    id = "db-" ++ String.drop id 3 := by
  unfold strStartsWith at h
  rw [List.isPrefixOf_iff_prefix] at h
  obtain ⟨t, ht⟩ := h
  apply String.ext
  rw [String.data_append, String.data_drop, ← ht]
  rw [show (3 : Nat) = ("db-".data).length from rfl, List.drop_left]

/-- Comparing two `db-`-prefixed ids is comparing the SKUs. -/
theorem db_id_beq (a b : String) : (("db-" ++ a : String) == ("db-" ++ b)) = (a == b) := by
  by_cases h : a = b
  · subst h; simp
  · have h2 : ¬(("db-" ++ a : String) = "db-" ++ b) := fun he => h (string_append_left_cancel he)
    simp [h, h2]


/-! ## Claim theorems -/

/-- C3: for every status value `S` the gallery's filtered list contains
exactly the ad records whose status equals `S`, in their original order (it
is a sublist of the full list), and the `all` filter yields the full
unmodified record list; the filter is the pure predicate `a.status == s`
over the in-memory array. -/
theorem gallery_filter_exact :
    (∀ s : AdStatus,
      (∀ a : AdVariation, a ∈ filteredAds (.only s) ↔ a ∈ adVariations ∧ a.status = s)
      ∧ List.Sublist (filteredAds (.only s)) adVariations
      ∧ filteredAds (.only s) = adVariations.filter (fun a => a.status == s))
    ∧ filteredAds .all = adVariations := by
  refine ⟨fun s => ⟨fun a => ?_, ?_, rfl⟩, rfl⟩
  · simp [filteredAds, List.mem_filter]
  · show (adVariations.filter fun a => a.status == s).Sublist adVariations
    exact List.filter_sublist adVariations

/-- C5: the CSV-upload action appends exactly the 3 constant product records
(Ceramic Candle Holder, Wooden Picture Frame, Woven Storage Basket),
independently of whatever file was selected, and the only other state change
is setting the csv-uploaded flag. -/
theorem csvUpload_appends_constants (f g : Option String) (st : SetupProductsState) :
    handleCsvUpload f st = handleCsvUpload g st
    ∧ (handleCsvUpload f st).addedProducts = st.addedProducts ++ csvProducts
    ∧ csvProducts.length = 3
    ∧ csvProducts.map AddedProduct.name
        = ["Ceramic Candle Holder", "Wooden Picture Frame", "Woven Storage Basket"]
    ∧ (handleCsvUpload f st).csvUploaded = true
    ∧ (handleCsvUpload f st).urlInput = st.urlInput
    ∧ (handleCsvUpload f st).selectedDbProducts = st.selectedDbProducts
    ∧ (handleCsvUpload f st).scraping = st.scraping :=
  ⟨rfl, rfl, rfl, rfl, rfl, rfl, rfl, rfl⟩

/-- C6: the generation simulation displays a monotonically non-decreasing
sequence of percentages (starting from the initial 0) that terminates at
100, its steps fire at fixed 1200 ms intervals, and after the final step a
further fixed delay triggers navigation to the dashboard route `/`. -/
theorem generation_progress_monotone :
    List.Chain' (fun a b => a ≤ b) ((0 : Nat) :: genSteps.map Prod.snd)
    ∧ (genSteps.map Prod.snd).getLast? = some 100
    ∧ (∀ i : Nat, genStepTime (i + 1) = genStepTime i + 1200)
    ∧ navigateTime = genStepTime (genSteps.length - 1) + navigateDelay
    ∧ navigateRoute = "/" := by
  refine ⟨by simp [genSteps, List.chain'_cons], by decide, fun i => ?_, rfl, rfl⟩
  simp only [genStepTime]
  ring

/-- C9: the copy-brief action places on the clipboard exactly the plain-text
block `Headline: ...\nPrimary Text: ...\nDescription: ...\nCTA: ...` built
from the selected record's fields; the text is a deterministic function of
the record (the modal state it runs in is irrelevant) and the copied flag is
set. -/
theorem copyBrief_template (ad : AdVariation) (st st' : DetailModalState) :
    (handleCopy ad st).clipboard
      = some ("Headline: " ++ ad.headline ++ "\nPrimary Text: " ++ ad.primaryText
          ++ "\nDescription: " ++ ad.description ++ "\nCTA: " ++ ad.cta)
    ∧ (handleCopy ad st).clipboard = (handleCopy ad st').clipboard
    ∧ (handleCopy ad st).copied = true :=
  ⟨rfl, rfl, rfl⟩


/-- C1: dropping record `R` (whose id is the pending dragged id) onto lane
`L` distinct from `R`'s current status reassigns `R`'s status to `L` — the
updated record sits in `L`'s lane and no record with `R`'s id remains in the
old lane — while every other record is unchanged at its position (and hence
keeps its lane). -/
theorem drop_moves_record (st : BoardState) (R : UgcScript) (L : AdStatus)
    (hmem : R ∈ st.scripts)
    (hids : (st.scripts.map UgcScript.id).Nodup)
    (hdrag : st.draggedId = some R.id)
    (hne : L ≠ R.status) :
    { R with status := L } ∈ (handleDrop L st).scripts.filter (fun s => s.status == L)
    ∧ (∀ s ∈ (handleDrop L st).scripts.filter (fun s => s.status == R.status), s.id ≠ R.id)
    ∧ (handleDrop L st).scripts.length = st.scripts.length
    ∧ (∀ i : Nat, st.scripts[i]? ≠ some R → (handleDrop L st).scripts[i]? = st.scripts[i]?) := by
  obtain ⟨scr, over, drag⟩ := st
  simp only at hdrag hmem hids
  subst hdrag
  have hscr : (handleDrop L ⟨scr, over, some R.id⟩).scripts
      = scr.map (fun s => if s.id == R.id then { s with status := L } else s) := rfl
  refine ⟨?_, ?_, ?_, ?_⟩
  · rw [hscr, List.mem_filter]
    constructor
    · have := List.mem_map_of_mem (fun s => if s.id == R.id then { s with status := L } else s) hmem
      simpa using this
    · simp
  · intro s hs
    rw [hscr, List.mem_filter] at hs
    obtain ⟨hsmem, hstat⟩ := hs
    obtain ⟨t, ht, hft⟩ := List.mem_map.mp hsmem
    cases hbeq : t.id == R.id with
    | true =>
        rw [if_pos hbeq] at hft
        rw [← hft] at hstat
        simp only [beq_iff_eq] at hstat
        exact absurd hstat hne
    | false =>
        rw [if_neg (by simp [hbeq])] at hft
        rw [← hft]
        simpa using hbeq
  · rw [hscr, List.length_map]
  · intro i hi
    rw [hscr, List.getElem?_map]
    cases hg : scr[i]? with
    | none => rfl
    | some t =>
        rw [hg] at hi
        have htmem : t ∈ scr := List.getElem?_mem hg
        have htR : t ≠ R := fun he => hi (by rw [he])
        have htid : (t.id == R.id) = false := by
          rw [beq_eq_false_iff_ne]
          intro he
          exact htR (List.inj_on_of_nodup_map hids htmem hmem he)
        show some (if (t.id == R.id) = true then { t with status := L } else t) = some t
        rw [if_neg (by simp [htid])]

/-- A fixture script in the `draft` lane, used by concrete witnesses. -/
def wScriptA : UgcScript :=
  { id := "w-a", product := "Widget", type := .review, duration := .s15,
    hook := "", scenes := [], cta := "", status := .draft }

/-- A fixture script in the `review` lane, used by concrete witnesses. -/
def wScriptB : UgcScript :=
  { id := "w-b", product := "Widget", type := .unboxing, duration := .s30,
    hook := "", scenes := [], cta := "", status := .review }

/-- A fixture board with `wScriptA` pending as the dragged record. -/
def wBoard : BoardState :=
  { scripts := [wScriptA, wScriptB], dragOverCol := none, draggedId := some "w-a" }

/-- Witness for C1: on the concrete fixture board, dropping the dragged
`wScriptA` onto the `ready` lane satisfies all hypotheses and conclusions of
`drop_moves_record`. -/
theorem drop_moves_record_witness :
    (wScriptA ∈ wBoard.scripts
      ∧ (wBoard.scripts.map UgcScript.id).Nodup
      ∧ wBoard.draggedId = some wScriptA.id
      ∧ AdStatus.ready ≠ wScriptA.status)
    ∧ ({ wScriptA with status := AdStatus.ready }
          ∈ (handleDrop AdStatus.ready wBoard).scripts.filter (fun s => s.status == AdStatus.ready)
      ∧ (∀ s ∈ (handleDrop AdStatus.ready wBoard).scripts.filter
            (fun s => s.status == wScriptA.status), s.id ≠ wScriptA.id)
      ∧ (handleDrop AdStatus.ready wBoard).scripts.length = wBoard.scripts.length
      ∧ (∀ i : Nat, wBoard.scripts[i]? ≠ some wScriptA →
          (handleDrop AdStatus.ready wBoard).scripts[i]? = wBoard.scripts[i]?)) :=
  ⟨⟨by decide, by decide, rfl, by decide⟩,
    drop_moves_record wBoard wScriptA AdStatus.ready (by decide) (by decide) rfl (by decide)⟩

/-- C7: a drop with no pending dragged identifier leaves the record list
unchanged, and dropping a card onto the lane it already belongs to leaves
every record (hence every status field) equal to its prior value. -/
theorem drop_noop_guards (st : BoardState) (R : UgcScript) (L : AdStatus) :
    (st.draggedId = none → (handleDrop L st).scripts = st.scripts)
    ∧ (st.draggedId = some R.id → R ∈ st.scripts →
        (st.scripts.map UgcScript.id).Nodup →
        (handleDrop R.status st).scripts = st.scripts) := by
  obtain ⟨scr, over, drag⟩ := st
  constructor
  · intro h
    subst h
    rfl
  · intro hdrag hmem hids
    subst hdrag
    show scr.map (fun s => if s.id == R.id then { s with status := R.status } else s) = scr
    have : ∀ t ∈ scr,
        (if t.id == R.id then { t with status := R.status } else t) = id t := by
      intro t ht
      cases hbeq : t.id == R.id with
      | true =>
          simp only [if_true, id]
          have : t = R := by
            apply List.inj_on_of_nodup_map hids ht hmem
            simpa using hbeq
          subst this
          rfl
      | false => simp [id]
    rw [List.map_congr_left this, List.map_id]

/-- Witness for C7: on the fixture board, a drop with no pending drag id and
a same-lane drop are both no-ops on the record list. -/
theorem drop_noop_guards_witness :
    ((handleDragEnd wBoard).draggedId = none
      ∧ (handleDrop AdStatus.ready (handleDragEnd wBoard)).scripts = (handleDragEnd wBoard).scripts)
    ∧ (wBoard.draggedId = some wScriptA.id ∧ wScriptA ∈ wBoard.scripts
      ∧ (wBoard.scripts.map UgcScript.id).Nodup
      ∧ (handleDrop wScriptA.status wBoard).scripts = wBoard.scripts) :=
  ⟨⟨rfl, (drop_noop_guards (handleDragEnd wBoard) wScriptA AdStatus.ready).1 rfl⟩,
    ⟨rfl, by decide, by decide,
      (drop_noop_guards wBoard wScriptA AdStatus.ready).2 rfl (by decide) (by decide)⟩⟩


/-- C2: the kanban grouping is a partition of the script list — the
concatenation of the four per-lane lists is a permutation of the full list
(no duplicates or omissions), a record sits in a lane iff the lane's status
equals the record's status, and there is exactly one lane per status, in the
fixed column order. -/
theorem grouped_partition (scripts : List UgcScript) :
    List.Perm ((grouped scripts).flatMap fun g => g.2) scripts
    ∧ (∀ s ∈ scripts, ∀ g ∈ grouped scripts, (s ∈ g.2 ↔ g.1.id = s.status))
    ∧ (grouped scripts).map (fun g => g.1.id)
        = [AdStatus.draft, AdStatus.review, AdStatus.ready, AdStatus.exported] := by
  have hb : ((grouped scripts).flatMap fun g => g.2)
      = scripts.filter (fun s => s.status == AdStatus.draft)
        ++ (scripts.filter (fun s => s.status == AdStatus.review)
        ++ (scripts.filter (fun s => s.status == AdStatus.ready)
        ++ (scripts.filter (fun s => s.status == AdStatus.exported) ++ []))) := rfl
  refine ⟨?_, ?_, rfl⟩
  · rw [List.perm_iff_count]
    intro x
    rw [hb]
    simp only [List.count_append, count_filter_eq, List.count_nil]
    rcases hx : x.status <;> simp [hx, beq_iff_eq]
  · intro s hs g hg
    obtain ⟨col, hcol, rfl⟩ := List.mem_map.mp hg
    constructor
    · intro hmem2
      have h := (List.mem_filter.mp hmem2).2
      exact (beq_iff_eq.mp h).symm
    · intro h
      exact List.mem_filter.mpr ⟨hs, beq_iff_eq.mpr h.symm⟩

/-- Witness for C2: on a concrete one-script list, the script lies exactly in
the lane whose status matches its own. -/
theorem grouped_partition_witness :
    wScriptA ∈ [wScriptA]
    ∧ (∀ g ∈ grouped [wScriptA], (wScriptA ∈ g.2 ↔ g.1.id = wScriptA.status)) :=
  ⟨by decide, (grouped_partition [wScriptA]).2.1 wScriptA (by decide)⟩


/-- C8: in every board state reachable from the initial state, every script's
status is one of the four lane statuses; every static ad record's platform is
one of the four fixed platforms; and every possible drag-drop target status
is one of the four lane statuses (so reassignment preserves the invariant). -/
theorem status_platform_closed (st : BoardState) (_h : ReachableBoard st) :
    (∀ s ∈ st.scripts, s.status ∈ columns.map Column.id)
    ∧ (∀ a ∈ adVariations,
        a.platform ∈ [Platform.meta, Platform.google, Platform.tiktok, Platform.pinterest])
    ∧ (∀ c : AdStatus, c ∈ columns.map Column.id) := by
  have hall : ∀ c : AdStatus, c ∈ columns.map Column.id := by
    intro c
    cases c <;> decide
  exact ⟨fun s _ => hall s.status, by decide, hall⟩

/-- Witness for C8: the initial board is reachable and satisfies the status
invariant. -/
theorem status_platform_closed_witness :
    ReachableBoard initialBoard
    ∧ (∀ s ∈ initialBoard.scripts, s.status ∈ columns.map Column.id) :=
  ⟨Relation.ReflTransGen.refl,
    (status_platform_closed initialBoard Relation.ReflTransGen.refl).1⟩

/-- C4: starting from the empty added-products list, `n` completed add-by-URL
invocations (each with non-empty trimmed URL input) append exactly `n`
records; the `i`-th (0-based) appended record draws its name, category and
price from pool entry `i % 5` of the constant pool of size 5, so the
(5+1)-th addition repeats the 1st pool entry. -/
theorem addUrl_round_robin (urls ids skus : Nat → String) (n : Nat)
    (hurls : ∀ i, i < n → strTrim (urls i) ≠ "") :
    addUrlTimes urls ids skus n = (List.range n).map (fun i => mkUrlProduct (ids i) (skus i) i)
    ∧ (addUrlTimes urls ids skus n).length = n
    ∧ scrapedProducts.length = 5
    ∧ (∀ i : Nat, ∀ id1 sku1 id2 sku2 : String,
        (mkUrlProduct id1 sku1 (i + scrapedProducts.length)).name
            = (mkUrlProduct id2 sku2 i).name
        ∧ (mkUrlProduct id1 sku1 (i + scrapedProducts.length)).category
            = (mkUrlProduct id2 sku2 i).category
        ∧ (mkUrlProduct id1 sku1 (i + scrapedProducts.length)).price
            = (mkUrlProduct id2 sku2 i).price)
    ∧ (∀ id1 sku1 : String, ∀ i : Nat, (mkUrlProduct id1 sku1 i).source = ProductSource.url) := by
  have hmain : addUrlTimes urls ids skus n
      = (List.range n).map (fun i => mkUrlProduct (ids i) (skus i) i) := by
    induction n with
    | zero => rfl
    | succ m ih =>
        have ih2 := ih (fun i hi => hurls i (Nat.lt_succ_of_lt hi))
        have hlen : (addUrlTimes urls ids skus m).length = m := by
          rw [ih2, List.length_map, List.length_range]
        have hne : (strTrim (urls m) == "") = false := by
          rw [beq_eq_false_iff_ne]
          exact hurls m (Nat.lt_succ_self m)
        show handleAddUrl (urls m) (ids m) (skus m) (addUrlTimes urls ids skus m) = _
        rw [handleAddUrl, if_neg (by simp [hne]), hlen, ih2, List.range_succ, List.map_append,
          List.map_singleton]
  have hrep : ∀ i : Nat, ∀ id1 sku1 id2 sku2 : String,
      (mkUrlProduct id1 sku1 (i + scrapedProducts.length)).name
          = (mkUrlProduct id2 sku2 i).name
      ∧ (mkUrlProduct id1 sku1 (i + scrapedProducts.length)).category
          = (mkUrlProduct id2 sku2 i).category
      ∧ (mkUrlProduct id1 sku1 (i + scrapedProducts.length)).price
          = (mkUrlProduct id2 sku2 i).price := by
    intro i id1 sku1 id2 sku2
    have hmod : (i + scrapedProducts.length) % scrapedProducts.length = i % scrapedProducts.length :=
      Nat.add_mod_right i scrapedProducts.length
    refine ⟨?_, ?_, ?_⟩ <;> simp [mkUrlProduct, hmod]
  refine ⟨hmain, ?_, rfl, hrep, fun id1 sku1 i => rfl⟩
  rw [hmain, List.length_map, List.length_range]

/-- Witness for C4: six concrete invocations with non-empty URL input produce
the six round-robin records. -/
theorem addUrl_round_robin_witness :
    (∀ i, i < 6 → strTrim ((fun _ : Nat => "https://example.com") i) ≠ "")
    ∧ addUrlTimes (fun _ => "https://example.com") (fun _ => "u-id") (fun _ => "u-sku") 6
        = (List.range 6).map (fun i => mkUrlProduct ((fun _ : Nat => "u-id") i) ((fun _ : Nat => "u-sku") i) i) :=
  ⟨by decide,
    (addUrl_round_robin (fun _ => "https://example.com") (fun _ => "u-id") (fun _ => "u-sku") 6
      (by decide)).1⟩


/-- The database-sourced record that the setup page associates with a SKU:
`toggleDbProduct` builds it from the `productAdCounts` entry found for the
SKU (the `none` branch is unreachable for database SKUs). -/
def dbRecord (sku : String) : AddedProduct :=
  match productAdCounts.find? (fun p => p.sku == sku) with
  | some p =>
      { id := "db-" ++ sku, name := p.product, sku := p.sku,
        category := "", price := "", source := .database }
  | none =>
      { id := "db-" ++ sku, name := "", sku := sku,
        category := "", price := "", source := .database }

theorem dbRecord_source (sku : String) : (dbRecord sku).source = ProductSource.database := by
  unfold dbRecord
  split <;> rfl

theorem dbRecord_id (sku : String) : (dbRecord sku).id = "db-" ++ sku := by
  unfold dbRecord
  split <;> rfl

/-- The SKUs of `productAdCounts` are pairwise distinct, so looking a product
up by its own SKU finds it. -/
theorem dbRecord_of_mem : ∀ p ∈ productAdCounts, dbRecord p.sku
    = { id := "db-" ++ p.sku, name := p.product, sku := p.sku,
        category := "", price := "", source := ProductSource.database } := by
  decide

/-- A database SKU always has a `productAdCounts` entry. -/
theorem find?_of_mem_dbSkus {sku : String} (h : sku ∈ dbSkus) :
    ∃ p, productAdCounts.find? (fun p => p.sku == sku) = some p := by
  obtain ⟨q, hq, rfl⟩ := List.mem_map.mp h
  have : (productAdCounts.find? (fun p => p.sku == q.sku)).isSome = true := by
    rw [List.find?_isSome]
    exact ⟨q, hq, by simp⟩
  exact Option.isSome_iff_exists.mp this

/-- The sync invariant maintained by the database-selection operations: the
added-products list is exactly the selected SKUs mapped to their database
records, and the selection is duplicate-free and drawn from the database. -/
def DbInv (st : SetupProductsState) : Prop :=
  st.selectedDbProducts.Nodup
  ∧ (∀ s ∈ st.selectedDbProducts, s ∈ dbSkus)
  ∧ st.addedProducts = st.selectedDbProducts.map dbRecord

theorem dbInv_initial : DbInv initialSetupState :=
  ⟨List.nodup_nil, fun s hs => absurd hs (List.not_mem_nil s), rfl⟩

theorem dbInv_toggle {st : SetupProductsState} {sku : String}
    (hsku : sku ∈ dbSkus) (hinv : DbInv st) : DbInv (toggleDbProduct sku st) := by
  obtain ⟨hnd, hsub, hmap⟩ := hinv
  obtain ⟨p, hfind⟩ := find?_of_mem_dbSkus hsku
  by_cases hm : sku ∈ st.selectedDbProducts
  · -- deselection: the SKU leaves the list and its record is filtered out
    have hnotnxt : sku ∉ st.selectedDbProducts.filter fun s => !(s == sku) := by
      intro hc
      have := (List.mem_filter.mp hc).2
      simp at this
    have hstate : toggleDbProduct sku st
        = { st with
            selectedDbProducts := st.selectedDbProducts.filter fun s => !(s == sku),
            addedProducts := st.addedProducts.filter fun q => !(q.id == "db-" ++ sku) } := by
      simp only [toggleDbProduct, hfind]
      rw [if_pos hm, if_neg hnotnxt]
    rw [hstate]
    refine ⟨hnd.filter _, ?_, ?_⟩
    · intro s hs
      exact hsub s (List.mem_filter.mp hs).1
    · show st.addedProducts.filter (fun q => !(q.id == "db-" ++ sku))
          = List.map dbRecord (st.selectedDbProducts.filter fun s => !(s == sku))
      rw [hmap, map_filter_comm]
      congr 1
      apply List.filter_congr
      intro a _
      rw [dbRecord_id, db_id_beq]
  · -- selection: the SKU joins the list and its record is appended
    have hinnxt : sku ∈ st.selectedDbProducts ++ [sku] := by simp
    have hstate : toggleDbProduct sku st
        = { st with
            selectedDbProducts := st.selectedDbProducts ++ [sku],
            addedProducts := st.addedProducts ++
              [{ id := "db-" ++ sku, name := p.product, sku := p.sku,
                 category := "", price := "", source := .database }] } := by
      simp only [toggleDbProduct, hfind]
      rw [if_neg hm, if_pos hinnxt]
    rw [hstate]
    refine ⟨?_, ?_, ?_⟩
    · show (st.selectedDbProducts ++ [sku]).Nodup
      rw [List.nodup_append]
      exact ⟨hnd, List.nodup_singleton sku, by simpa using fun h => hm h⟩
    · intro s hs
      rcases List.mem_append.mp hs with h | h
      · exact hsub s h
      · rw [List.mem_singleton.mp h]
        exact hsku
    · show st.addedProducts ++ _ = List.map dbRecord (st.selectedDbProducts ++ [sku])
      rw [List.map_append, List.map_singleton, hmap]
      congr 1
      unfold dbRecord
      rw [hfind]

theorem dbInv_selectAll {st : SetupProductsState} (hinv : DbInv st) :
    DbInv (selectAllDb st) := by
  obtain ⟨hnd, hsub, hmap⟩ := hinv
  refine ⟨(by decide : dbSkus.Nodup), fun s hs => hs, ?_⟩
  show st.addedProducts.filter (fun q => !(q.source == .database))
        ++ (productAdCounts.map fun q =>
              { id := "db-" ++ q.sku, name := q.product, sku := q.sku,
                category := "", price := "", source := .database })
      = dbSkus.map dbRecord
  rw [hmap, map_filter_comm]
  have hfalse : (st.selectedDbProducts.filter
      fun a => !((dbRecord a).source == ProductSource.database)) = [] := by
    have h1 : ∀ a ∈ st.selectedDbProducts,
        (!((dbRecord a).source == ProductSource.database)) = (fun _ => false) a := by
      intro a _
      rw [dbRecord_source]
      rfl
    rw [List.filter_congr h1, List.filter_false]
  rw [hfalse, List.map_nil, List.nil_append]
  unfold dbSkus
  rw [List.map_map]
  exact (List.map_congr_left fun q hq => (dbRecord_of_mem q hq).symm).symm

theorem dbInv_deselectAll {st : SetupProductsState} (hinv : DbInv st) :
    DbInv (deselectAllDb st) := by
  obtain ⟨hnd, hsub, hmap⟩ := hinv
  refine ⟨List.nodup_nil, fun s hs => absurd hs (List.not_mem_nil s), ?_⟩
  show st.addedProducts.filter (fun q => !(q.source == .database)) = List.map dbRecord []
  rw [hmap, map_filter_comm]
  have h1 : ∀ a ∈ st.selectedDbProducts,
      (!((dbRecord a).source == ProductSource.database)) = (fun _ => false) a := by
    intro a _
    rw [dbRecord_source]
    rfl
  rw [List.filter_congr h1, List.filter_false]

theorem dbInv_remove {st : SetupProductsState} (id : String) (hinv : DbInv st) :
    DbInv (removeProduct id st) := by
  obtain ⟨hnd, hsub, hmap⟩ := hinv
  cases hws : strStartsWith id ("db-") with
  | false =>
      have hstate : removeProduct id st
          = { st with addedProducts := st.addedProducts.filter fun q => !(q.id == id) } := by
        simp only [removeProduct]
        rw [hws, if_neg Bool.false_ne_true]
      rw [hstate]
      refine ⟨hnd, hsub, ?_⟩
      show st.addedProducts.filter (fun q => !(q.id == id))
          = List.map dbRecord st.selectedDbProducts
      rw [hmap, map_filter_comm]
      have h1 : ∀ a ∈ st.selectedDbProducts,
          (!((dbRecord a).id == id)) = (fun _ => true) a := by
        intro a _
        rw [dbRecord_id]
        have hne : ("db-" ++ a : String) ≠ id := by
          intro he
          rw [← he, strStartsWith_db] at hws
          cases hws
        simp [hne]
      rw [List.filter_congr h1, List.filter_true]
  | true =>
      have hstate : removeProduct id st
          = { st with
              addedProducts := st.addedProducts.filter fun q => !(q.id == id),
              selectedDbProducts :=
                st.selectedDbProducts.filter fun s => !(s == String.drop id 3) } := by
        simp only [removeProduct]
        rw [hws, if_pos rfl]
      rw [hstate]
      refine ⟨hnd.filter _, fun s hs => hsub s (List.mem_filter.mp hs).1, ?_⟩
      show st.addedProducts.filter (fun q => !(q.id == id))
          = List.map dbRecord (st.selectedDbProducts.filter fun s => !(s == String.drop id 3))
      rw [hmap, map_filter_comm]
      congr 1
      apply List.filter_congr
      intro a _
      rw [dbRecord_id]
      have hdec : id = "db-" ++ String.drop id 3 := strStartsWith_decomp hws
      conv =>
        lhs
        rw [hdec]
      rw [db_id_beq]

theorem dbInv_step {st st' : SetupProductsState} (hinv : DbInv st)
    (hstep : DbStep st st') : DbInv st' := by
  cases hstep with
  | toggle sku hsku _ => exact dbInv_toggle hsku hinv
  | selectAll _ => exact dbInv_selectAll hinv
  | deselectAll _ => exact dbInv_deselectAll hinv
  | remove id _ => exact dbInv_remove id hinv

/-- C10: in every setup state reachable via the database-selection
operations, a SKU is selected iff the added-products list contains a record
whose id is `db-` followed by that SKU, and the added records' ids are
duplicate-free. -/
theorem db_selection_sync (st : SetupProductsState) (h : ReachableDb st) :
    (∀ sku : String,
      sku ∈ st.selectedDbProducts ↔ ∃ p ∈ st.addedProducts, p.id = "db-" ++ sku)
    ∧ (st.addedProducts.map AddedProduct.id).Nodup := by
  have hinv : DbInv st := by
    induction h with
    | refl => exact dbInv_initial
    | tail _hsteps hstep ih => exact dbInv_step ih hstep
  obtain ⟨hnd, _hsub, hmap⟩ := hinv
  constructor
  · intro sku
    constructor
    · intro hs
      exact ⟨dbRecord sku, by rw [hmap]; exact List.mem_map_of_mem dbRecord hs, dbRecord_id sku⟩
    · rintro ⟨p, hp, hid⟩
      rw [hmap] at hp
      obtain ⟨a, ha, rfl⟩ := List.mem_map.mp hp
      have heq : ("db-" ++ a : String) = "db-" ++ sku := by rw [← dbRecord_id a, hid]
      exact string_append_left_cancel heq ▸ ha
  · rw [hmap, List.map_map]
    have : (AddedProduct.id ∘ dbRecord) = fun s => "db-" ++ s := by
      funext s
      exact dbRecord_id s
    rw [this]
    exact hnd.map db_id_injective

/-- Witness for C10: after toggling one database SKU from the initial state
(a reachable state), the selected SKU corresponds to an added `db-` record. -/
theorem db_selection_sync_witness :
    ReachableDb (toggleDbProduct ("KIT-PO-100") initialSetupState)
    ∧ (("KIT-PO-100" : String) ∈ (toggleDbProduct ("KIT-PO-100") initialSetupState).selectedDbProducts
        ↔ ∃ p ∈ (toggleDbProduct ("KIT-PO-100") initialSetupState).addedProducts,
            p.id = "db-" ++ "KIT-PO-100") :=
  ⟨Relation.ReflTransGen.single (DbStep.toggle ("KIT-PO-100") (by decide) initialSetupState),
    (db_selection_sync (toggleDbProduct ("KIT-PO-100") initialSetupState)
      (Relation.ReflTransGen.single (DbStep.toggle ("KIT-PO-100") (by decide) initialSetupState))).1
      ("KIT-PO-100")⟩


/-- Witness for C3: the `all` filter concretely returns the full list. -/
theorem gallery_filter_exact_witness :
    filteredAds .all = adVariations :=
  (gallery_filter_exact).2

/-- Witness for C5: a concrete upload from the initial state appends the 3
constant records, whatever file is selected. -/
theorem csvUpload_appends_constants_witness :
    handleCsvUpload none initialSetupState
        = handleCsvUpload (some ("products.csv")) initialSetupState
    ∧ (handleCsvUpload none initialSetupState).addedProducts
        = initialSetupState.addedProducts ++ csvProducts :=
  ⟨(csvUpload_appends_constants none (some ("products.csv")) initialSetupState).1,
    (csvUpload_appends_constants none (some ("products.csv")) initialSetupState).2.1⟩

/-- Witness for C6: the concrete progress sequence ends at 100. -/
theorem generation_progress_monotone_witness :
    (genSteps.map Prod.snd).getLast? = some 100 :=
  (generation_progress_monotone).2.1

/-- A fixture ad record, used by the copy-brief witness. -/
def wAd : AdVariation :=
  { id := "w-ad", product := "Widget", sku := "W-1", platform := .meta,
    headline := "H", primaryText := "P", description := "D", cta := "C",
    charCount := { headline := 1, maxHeadline := 2, primary := 1, maxPrimary := 2 },
    status := .ready, angle := "A", createdAt := "Feb 1" }

/-- Witness for C9: the copy-brief text of a concrete record. -/
theorem copyBrief_template_witness :
    (handleCopy wAd { copied := false, clipboard := none }).clipboard
      = some ("Headline: " ++ wAd.headline ++ "\nPrimary Text: " ++ wAd.primaryText
          ++ "\nDescription: " ++ wAd.description ++ "\nCTA: " ++ wAd.cta) :=
  (copyBrief_template wAd { copied := false, clipboard := none }
    { copied := false, clipboard := none }).1

end Scaleify
